import Mathlib

/-!
Verification of the VRPTW/PDPTW solution verifier.

The Rust sources (verifier crate: `verify.rs`, `verify/instance.rs`,
`verify/solution.rs`; reader crate: `instance.rs`; server crate: `main.rs`)
are embedded shallowly:

* machine integers (`i32`, `usize`) become `Int`/`Nat`; the `as usize`
  cast is modelled exactly as wrap-around modulo `2 ^ 64`;
* the arbitrary-precision floats (`rug::Float`, 128-bit significand) used
  for distances and times are idealised as real numbers;
* `Result<T, String>` becomes `Except Fail T`, where `Fail` separates a
  returned error (`Fail.err`) from a Rust panic (`Fail.panic`): every
  vector index, `unwrap`, and slice access that can panic in the source is
  modelled through the fallible helpers `vecGet` / `vecSet` /
  `headIdx` / `lastIdx` / `unwrapExcept`;
* error strings whose text interpolates a float are modelled as structured
  constructors carrying the named values; parse errors, whose exact text
  claims refer to, are kept as literal strings.
-/

set_option autoImplicit false
set_option linter.unusedVariables false

/-- One location of an instance (mirrors `Point` in `verify/instance.rs`). -/
structure Point where
  id : Int
  x : Int
  y : Int
  demand : Int
  start : Int
  due : Int
  service : Int
  pickup_delivery : Option (Int × Int)
deriving DecidableEq, Repr

/-- A parsed instance (mirrors `Instance` in `verify/instance.rs`). -/
structure Instance where
  name : String
  vehicles : Int
  max_capacity : Int
  pts : List Point
  is_pdp : Bool
deriving DecidableEq, Repr

/-- A parsed solution (mirrors `Solution` in `verify/solution.rs`). -/
structure Solution where
  instance_name : String
  routes : List (List Nat)
deriving DecidableEq, Repr

/-- Structured form of the sanity-check error strings of `Instance::check_sanity`. -/
inductive SanityErr where
  | tooFewPoints (n : Nat)
  | badIds (l : List Nat)
  | demandExceedsCapacity (id : Int)
  | negativeDemandNotPdp (id : Int)
  | pairButNotPdp (id : Int)
  | bothNonzero (id p dl : Int)
  | pairOutOfRange (id other : Int)
  | pairNotPdp (id other : Int)
  | pairMismatch (id other : Int)
  | demandsDontSum (id demand : Int) (other : Point) (otherDemand : Int)
  | depotPairNotZero
  | depotDemandNonzero (demand : Int)
  | dueBeforeStart (id due start : Int)
  | arrivalAfterDue (arrival : ℝ) (id due : Int)
  | returnAfterDue (ret : ℝ) (id due : Int)

/-- Structured form of the verification error strings of `verify.rs`. -/
inductive VerifyErr where
  | depotNonTerminal (route pos : Nat)
  | nodeNotInInstance (node route pos : Nat)
  | visitedTwice (node route otherRoute : Nat)
  | notVisited (node : Nat)
  | pdpDifferentRoutes (pickup delivery r1 r2 : Nat)
  | deliveryBeforePickup (delivery pickup posDelivery posPickup : Nat)
  | tooManyVehicles (used : Nat) (allowed : Int)
  | arrivedLate (time : ℝ) (node : Int) (route pos : Nat)
  | arrivedLateAtDepot (time : ℝ) (route : Nat)
  | negativeLoad (node : Int) (route pos : Nat)
  | overCapacity (load cap : Int) (node : Int) (route pos : Nat)

/-- Any error value the embedded code can return. -/
inductive VErr where
  | parse (s : String)
  | sanity (e : SanityErr)
  | verif (e : VerifyErr)

/-- Outcome of a fallible computation: a returned `Err(..)` or a Rust panic. -/
inductive Fail where
  | err (e : VErr)
  | panic

/-- Rust `v[i]` on a `Vec`: the element, or a panic when out of bounds. -/
def vecGet {α : Type} (l : List α) (i : Nat) : Except Fail α :=
  match l[i]? with
  | some v => .ok v
  | none => .error .panic

/-- Rust `v[i] = x` on a `Vec`: the updated vector, or a panic when out of bounds. -/
def vecSet {α : Type} (l : List α) (i : Nat) (v : α) : Except Fail (List α) :=
  if i < l.length then .ok (l.set i v) else .error .panic

/-- Rust `route[0]`. -/
def headIdx : List Nat → Except Fail Nat
  | [] => .error .panic
  | i :: _ => .ok i

/-- Rust `*route.last().unwrap()`. -/
def lastIdx : List Nat → Except Fail Nat
  | [] => .error .panic
  | [i] => .ok i
  | _ :: i :: rest => lastIdx (i :: rest)

/-- Rust `.unwrap()` on a `Result`: an `Err` becomes a panic. -/
def unwrapExcept {α : Type} : Except Fail α → Except Fail α
  | .ok a => .ok a
  | .error _ => .error .panic

/-- Rust `as usize` applied to a signed integer: wrap-around modulo `2 ^ 64`. -/
def usizeCast (i : Int) : Nat := (i % (2 : Int) ^ 64).toNat

/-- Euclidean distance between two points (`Point::dist`), idealised over ℝ. -/
noncomputable def Point.dist (a b : Point) : ℝ :=
  Real.sqrt (((a.x - b.x) * (a.x - b.x) + (a.y - b.y) * (a.y - b.y) : Int) : ℝ)

/-! ## `check_basic_sanity` (`verify.rs`) -/

/-- Inner loop of `check_basic_sanity` over one route.
`m` is the `point_route_id` vector; note the source compares `pt >
point_route_id.len()` (strict), so `pt` equal to the length falls through
to the vector read, which panics. -/
def sanityRoute (len : Nat) (routeId : Nat) : List (Option Nat) → Nat → List Nat → Except Fail (List (Option Nat))
  | m, _, [] => .ok m
  | m, pos, pt :: rest =>
    if pt = 0 then
      .error (.err (.verif (.depotNonTerminal (routeId + 1) pos)))
    else if pt > len then
      .error (.err (.verif (.nodeNotInInstance pt (routeId + 1) pos)))
    else
      match m[pt]? with
      | none => .error .panic
      | some none => sanityRoute len routeId (m.set pt (some (routeId + 1))) (pos + 1) rest
      | some (some other) => .error (.err (.verif (.visitedTwice pt (routeId + 1) other)))

/-- Outer loop of `check_basic_sanity` over all routes. -/
def sanityRoutes (len : Nat) : List (Option Nat) → Nat → List (List Nat) → Except Fail (List (Option Nat))
  | m, _, [] => .ok m
  | m, routeId, r :: rs => do
      let m' ← sanityRoute len routeId m 0 r
      sanityRoutes len m' (routeId + 1) rs

/-- The final scan of `check_basic_sanity` for a never-visited point. -/
def firstUnvisited : Nat → List (Option Nat) → Option Nat
  | _, [] => none
  | i, none :: _ => some i
  | i, some _ :: rest => firstUnvisited (i + 1) rest

/-- `check_basic_sanity` of `verify.rs`. -/
def check_basic_sanity (inst : Instance) (sol : Solution) : Except Fail Unit := do
  let len := inst.pts.length
  let init ← vecSet (List.replicate len (none : Option Nat)) 0 (some 0)
  let m ← sanityRoutes len init 0 sol.routes
  match firstUnvisited 0 m with
  | some ptId => .error (.err (.verif (.notVisited ptId)))
  | none => .ok ()

/-! ## `check_route_load` (`verify.rs`) -/

/-- Loop of `check_route_load`: accumulate demand along the route. -/
def loadLoop (inst : Instance) (routeId : Nat) : Int → Nat → List Nat → Except Fail Unit
  | _, _, [] => .ok ()
  | load, pos, p :: rest => do
      let pt ← vecGet inst.pts p
      let load' := load + pt.demand
      if load' < 0 then
        .error (.err (.verif (.negativeLoad pt.id routeId pos)))
      else if load' > inst.max_capacity then
        .error (.err (.verif (.overCapacity load' inst.max_capacity pt.id routeId pos)))
      else loadLoop inst routeId load' (pos + 1) rest

/-- `check_route_load` of `verify.rs`. -/
def check_route_load (inst : Instance) (routeId : Nat) (route : List Nat) : Except Fail Unit :=
  loadLoop inst routeId 0 0 route

/-! ## `check_route_time` (`verify.rs`) -/

/-- The `tuple_windows` loop of `check_route_time`: `f` is the index of the
stop just serviced, `pos` the 0-based position of the next stop. -/
noncomputable def timeLegs (inst : Instance) (routeId : Nat) : Nat → ℝ → Nat → List Nat → Except Fail ℝ
  | _, time, _, [] => .ok time
  | f, time, pos, t :: rest => do
      let fromPt ← vecGet inst.pts f
      let toPt ← vecGet inst.pts t
      let arrival := time + fromPt.dist toPt
      if arrival > (toPt.due : ℝ) then
        .error (.err (.verif (.arrivedLate arrival toPt.id routeId pos)))
      else
        timeLegs inst routeId t (max arrival ((toPt.start : Int) : ℝ) + (toPt.service : ℝ)) (pos + 1) rest

/-- `check_route_time` of `verify.rs`. -/
noncomputable def check_route_time (inst : Instance) (routeId : Nat) (route : List Nat) : Except Fail Unit := do
  let depot ← vecGet inst.pts 0
  let f0 ← headIdx route
  let first ← vecGet inst.pts f0
  let time0 := ((depot.start + depot.service : Int) : ℝ) + depot.dist first
  if time0 > (first.due : ℝ) then
    .error (.err (.verif (.arrivedLate time0 first.id routeId 0)))
  else do
    let time1 := max time0 ((first.start : Int) : ℝ) + (first.service : ℝ)
    let timeEnd ← timeLegs inst routeId f0 time1 1 route.tail
    let l ← lastIdx route
    let last ← vecGet inst.pts l
    let timeBack := timeEnd + last.dist depot
    if timeBack > (depot.due : ℝ) then
      .error (.err (.verif (.arrivedLateAtDepot timeBack routeId)))
    else .ok ()

/-! ## `calc_route_distance` (`verify.rs`) -/

/-- The per-leg distances of the `tuple_windows` map in `calc_route_distance`. -/
noncomputable def legDists (inst : Instance) : Nat → List Nat → Except Fail (List ℝ)
  | _, [] => .ok []
  | f, t :: rest => do
      let fromPt ← vecGet inst.pts f
      let toPt ← vecGet inst.pts t
      let ds ← legDists inst t rest
      .ok (fromPt.dist toPt :: ds)

/-- `calc_route_distance` of `verify.rs`; the `reduce(Add::add)` is a
left fold of the window distances with `unwrap_or(0)` on an empty window list. -/
noncomputable def calc_route_distance (inst : Instance) (route : List Nat) : Except Fail ℝ := do
  let depot ← vecGet inst.pts 0
  let f0 ← headIdx route
  let first ← vecGet inst.pts f0
  let l ← lastIdx route
  let last ← vecGet inst.pts l
  let ds ← legDists inst f0 route.tail
  let mid := match ds with
    | [] => (0 : ℝ)
    | d0 :: rest => rest.foldl (fun a b => a + b) d0
  .ok (depot.dist first + mid + last.dist depot)

/-! ## `check_pdp` (`verify.rs`) -/

/-- Filling `point_route_id` and `route_idx` for one route of `check_pdp`. -/
def pdpFillRoute (routeId : Nat) : List Nat × List Nat → Nat → List Nat → Except Fail (List Nat × List Nat)
  | maps, _, [] => .ok maps
  | (prid, ridx), i, p :: rest => do
      let prid' ← vecSet prid p (routeId + 1)
      let ridx' ← vecSet ridx p i
      pdpFillRoute routeId (prid', ridx') (i + 1) rest

/-- Filling `point_route_id` and `route_idx` for all routes of `check_pdp`. -/
def pdpFill : List Nat × List Nat → Nat → List (List Nat) → Except Fail (List Nat × List Nat)
  | maps, _, [] => .ok maps
  | maps, routeId, r :: rs => do
      let maps' ← pdpFillRoute routeId maps 0 r
      pdpFill maps' (routeId + 1) rs

/-- The per-point loop of `check_pdp`; the `pickup_delivery.unwrap()` of the
source is a panic when the pair is absent. -/
def pdpCheckPoints (inst : Instance) (prid ridx : List Nat) : List Nat → Except Fail Unit
  | [] => .ok ()
  | pt :: rest => do
      let p ← vecGet inst.pts pt
      let pd ← match p.pickup_delivery with
        | some pd => Except.ok pd
        | none => Except.error Fail.panic
      let pickup := if pd.1 ≠ 0 then usizeCast pd.1 else pt
      let delivery := if pd.1 ≠ 0 then pt else usizeCast pd.2
      let rp ← vecGet prid pickup
      let rd ← vecGet prid delivery
      if rp ≠ rd then
        .error (.err (.verif (.pdpDifferentRoutes pickup delivery rp rd)))
      else do
        let ip ← vecGet ridx pickup
        let idd ← vecGet ridx delivery
        if ip > idd then
          .error (.err (.verif (.deliveryBeforePickup delivery pickup idd ip)))
        else pdpCheckPoints inst prid ridx rest

/-- `check_pdp` of `verify.rs`. -/
def check_pdp (inst : Instance) (sol : Solution) : Except Fail Unit := do
  let len := inst.pts.length
  let maps ← pdpFill (List.replicate len 0, List.replicate len 0) 0 sol.routes
  pdpCheckPoints inst maps.1 maps.2 (List.range' 1 (len - 1))

/-! ## `verify` (`verify.rs`) -/

/-- The per-route loop of `verify`: time check, then load check, then
distance accumulation. -/
noncomputable def verifyRoutes (inst : Instance) : Nat → ℝ → List (List Nat) → Except Fail ℝ
  | _, acc, [] => .ok acc
  | routeId, acc, r :: rest => do
      check_route_time inst routeId r
      check_route_load inst routeId r
      let d ← calc_route_distance inst r
      verifyRoutes inst (routeId + 1) (acc + d) rest

/-- `verify` of `verify.rs`. -/
noncomputable def verify (inst : Instance) (sol : Solution) : Except Fail ℝ := do
  check_basic_sanity inst sol
  if inst.is_pdp then check_pdp inst sol else pure ()
  if sol.routes.length > usizeCast inst.vehicles then
    .error (.err (.verif (.tooManyVehicles sol.routes.length inst.vehicles)))
  else
    verifyRoutes inst 1 0 sol.routes

/-! ## `Instance::check_sanity` (`verify/instance.rs`) -/

/-- `Instance::point_ids_are_sequential`: collect every index whose point id
(cast `as usize`) differs from the index. -/
def point_ids_are_sequential (inst : Instance) : Except Fail Unit :=
  let bad := inst.pts.enum.filterMap fun p => if usizeCast p.2.id ≠ p.1 then some p.1 else none
  if bad.isEmpty then .ok () else .error (.err (.sanity (.badIds bad)))

/-- The per-point body of `Instance::check_demands`. -/
def check_demands_point (inst : Instance) (pt : Point) : Except Fail Unit :=
  if pt.demand > inst.max_capacity then
    .error (.err (.sanity (.demandExceedsCapacity pt.id)))
  else if pt.demand < 0 ∧ inst.is_pdp = false then
    .error (.err (.sanity (.negativeDemandNotPdp pt.id)))
  else if inst.is_pdp = false ∧ pt.pickup_delivery.isSome = true then
    .error (.err (.sanity (.pairButNotPdp pt.id)))
  else
    match pt.pickup_delivery with
    | none => .ok ()
    | some (p, dl) =>
      if p ≠ 0 ∧ dl ≠ 0 then .error (.err (.sanity (.bothNonzero pt.id p dl)))
      else
        let otherIdx := if p ≠ 0 then p else dl
        if otherIdx < 0 ∨ otherIdx ≥ (inst.pts.length : Int) then
          .error (.err (.sanity (.pairOutOfRange pt.id otherIdx)))
        else do
          let other ← vecGet inst.pts (usizeCast otherIdx)
          if other.pickup_delivery = none then
            .error (.err (.sanity (.pairNotPdp pt.id otherIdx)))
          else if other.pickup_delivery ≠ some (0, pt.id) ∧ other.pickup_delivery ≠ some (pt.id, 0) then
            .error (.err (.sanity (.pairMismatch pt.id otherIdx)))
          else if pt.demand + other.demand ≠ 0 then
            .error (.err (.sanity (.demandsDontSum pt.id pt.demand other other.demand)))
          else .ok ()

/-- The loop of `Instance::check_demands` over all points. -/
def check_demands_loop (inst : Instance) : List Point → Except Fail Unit
  | [] => .ok ()
  | pt :: rest => do
      check_demands_point inst pt
      check_demands_loop inst rest

/-- `Instance::check_demands`. -/
def check_demands (inst : Instance) : Except Fail Unit := do
  check_demands_loop inst inst.pts
  (if inst.is_pdp then do
    let depot ← vecGet inst.pts 0
    if depot.pickup_delivery ≠ some (0, 0) then
      Except.error (.err (.sanity .depotPairNotZero))
    else Except.ok ()
  else Except.ok ())
  let depot ← vecGet inst.pts 0
  if depot.demand ≠ 0 then
    .error (.err (.sanity (.depotDemandNonzero depot.demand)))
  else .ok ()

/-- The per-point body of `Instance::check_time`. -/
noncomputable def check_time_point (depot pt : Point) : Except Fail Unit :=
  if pt.start > pt.due then
    .error (.err (.sanity (.dueBeforeStart pt.id pt.due pt.start)))
  else
    let earliestArrival := ((depot.start : Int) : ℝ) + depot.dist pt
    if earliestArrival > (pt.due : ℝ) then
      .error (.err (.sanity (.arrivalAfterDue earliestArrival pt.id pt.due)))
    else
      let earliestServiceFinish := max ((pt.start : Int) : ℝ) earliestArrival + (pt.service : ℝ)
      let earliestReturn := earliestServiceFinish + pt.dist depot
      if earliestReturn > (depot.due : ℝ) then
        .error (.err (.sanity (.returnAfterDue earliestReturn pt.id depot.due)))
      else .ok ()

/-- The loop of `Instance::check_time`; the depot is re-read from `pts[0]`
inside the loop body, so an empty point list never reaches the read. -/
noncomputable def check_time_loop (inst : Instance) : List Point → Except Fail Unit
  | [] => .ok ()
  | pt :: rest => do
      let depot ← vecGet inst.pts 0
      check_time_point depot pt
      check_time_loop inst rest

/-- `Instance::check_time`. -/
noncomputable def check_time (inst : Instance) : Except Fail Unit :=
  check_time_loop inst inst.pts

/-- `Instance::check_sanity`. -/
noncomputable def Instance.check_sanity (inst : Instance) : Except Fail Unit := do
  if inst.pts.length < 2 then
    Except.error (.err (.sanity (.tooFewPoints inst.pts.length)))
  else do
    point_ids_are_sequential inst
    check_demands inst
    check_time inst

/-! ## `Point::from_str` (`verify/instance.rs` / reader `instance.rs`) -/

/-- Accumulator pass splitting a character list into maximal runs of
non-whitespace characters; `acc` is the current word, reversed. -/
def splitWSAux : List Char → List Char → List (List Char)
  | [], acc => if acc.isEmpty then [] else [acc.reverse]
  | c :: rest, acc =>
    if c.isWhitespace then
      if acc.isEmpty then splitWSAux rest [] else acc.reverse :: splitWSAux rest []
    else splitWSAux rest (c :: acc)

/-- Maximal runs of non-whitespace characters, as `str::split_whitespace`. -/
def splitWS (cs : List Char) : List (List Char) := splitWSAux cs []

/-- `str::split_whitespace` on a string. -/
def splitWhitespace (s : String) : List String := (splitWS s.data).map fun w => ⟨w⟩

/-- Value of a run of decimal digits; `none` when empty or not all digits. -/
def digitsVal : List Char → Option Nat
  | [] => none
  | cs => if cs.all Char.isDigit then some (cs.foldl (fun a c => a * 10 + (c.toNat - 48)) 0) else none

/-- Rust `str::parse::<i32>()`: optional sign, at least one digit, and the
value must fit in a 32-bit signed integer. -/
def parseI32 (s : String) : Option Int :=
  match s.data with
  | '+' :: rest => (digitsVal rest).bind fun n => if n ≤ 2 ^ 31 - 1 then some (n : Int) else none
  | '-' :: rest => (digitsVal rest).bind fun n => if n ≤ 2 ^ 31 then some (-(n : Int)) else none
  | cs => (digitsVal cs).bind fun n => if n ≤ 2 ^ 31 - 1 then some (n : Int) else none

/-- Rust `str::parse::<usize>()`: optional `+`, at least one digit, and the
value must fit in 64 bits. -/
def parseUsize (s : String) : Option Nat :=
  match s.data with
  | '+' :: rest => (digitsVal rest).bind fun n => if n ≤ 2 ^ 64 - 1 then some n else none
  | cs => (digitsVal cs).bind fun n => if n ≤ 2 ^ 64 - 1 then some n else none

/-- The token loop of `Point::from_str`: parse every whitespace token as an
`i32`, failing at the first bad token with the source's error text. -/
def parseFields (s : String) (i : Nat) : List String → Except Fail (List Int)
  | [] => .ok []
  | t :: rest =>
    match parseI32 t with
    | none => .error (.err (.parse ("can\x27t parse line `" ++ s ++ "\x27: error in trying to parse field " ++ toString i ++ ": `" ++ t ++ "\x27 can not be parsed ")))
    | some n =>
      match parseFields s (i + 1) rest with
      | .error e => .error e
      | .ok ns => .ok (n :: ns)

/-- `Point::from_str`: tokenize, parse every token, then require exactly 7
or exactly 9 numbers. -/
def Point.from_str (s : String) : Except Fail Point :=
  match parseFields s 0 (splitWhitespace s) with
  | .error e => .error e
  | .ok vs =>
    match vs with
    | [a, b, c, d, e, f, g] =>
      .ok { id := a, x := b, y := c, demand := d, start := e, due := f, service := g, pickup_delivery := none }
    | [a, b, c, d, e, f, g, h, i] =>
      .ok { id := a, x := b, y := c, demand := d, start := e, due := f, service := g, pickup_delivery := some (h, i) }
    | _ =>
      .error (.err (.parse ("expected 7 or 9 integers in line `" ++ s ++ "\x27, have " ++ toString vs.length ++ " numbers")))

/-! ## `Instance::from_str` (verifier and reader crates)

Modelled from the spec: the PEG grammar file `gh_ll_instance.pest` is not
part of the sources; the result of the structural parse is modelled as the
list of matched grammar nodes (`vehicles_capacity`, `row`, `instance_name`,
`d`) in file order, exactly the cases the `from_str` loops match on. -/

/-- Modelled from the spec: one node of the structural instance parse. -/
inductive INode where
  | vehicles_capacity (s : String)
  | row (s : String)
  | instance_name (s : String)
  | d
deriving DecidableEq

/-- The node loop of the verifier crate's `Instance::from_str`: a
`vehicles_capacity` node is split and parsed with `unwrap_or_default`, a
`row` node is parsed with `Point::from_str` and `unwrap`-ed (a parse error
panics), an `instance_name` node replaces the name. -/
def instFold : List Point × List Int × String → List INode → Except Fail (List Point × List Int × String)
  | acc, [] => .ok acc
  | (pts, v, name), node :: rest =>
    match node with
    | .vehicles_capacity s =>
        instFold (pts, (splitWhitespace s).map (fun c => (parseI32 c).getD 0), name) rest
    | .row s => do
        let p ← unwrapExcept (Point.from_str s)
        instFold (pts ++ [p], v, name) rest
    | .instance_name s => instFold (pts, v, s) rest
    | .d => instFold (pts, v, name) rest

/-- Building the `Instance` literal of `from_str`: `v[0]`, `v[1]` and
`pts[0]` are panicking vector reads, in the source's evaluation order. -/
def mkInstance (name : String) (pts : List Point) (v : List Int) : Except Fail Instance := do
  let v0 ← vecGet v 0
  let v1 ← vecGet v 1
  let p0 ← vecGet pts 0
  .ok { name := name, vehicles := v0, max_capacity := v1, pts := pts, is_pdp := p0.pickup_delivery.isSome }

/-- The verifier crate's `Instance::from_str` after the structural parse:
build the instance, then run `check_sanity` and propagate its error. -/
noncomputable def verifier_from_parsed (nodes : List INode) : Except Fail Instance := do
  let acc ← instFold ([], [], "") nodes
  let inst ← mkInstance acc.2.2 acc.1 acc.2.1
  inst.check_sanity
  .ok inst

/-- The node loop of the reader crate's `Instance::from_str`: same as the
verifier's, except that there is no `instance_name` arm, so such a node
falls into the `unreachable!()` arm (a panic). -/
def readerFold : List Point × List Int → List INode → Except Fail (List Point × List Int)
  | acc, [] => .ok acc
  | (pts, v), node :: rest =>
    match node with
    | .vehicles_capacity s =>
        readerFold (pts, (splitWhitespace s).map (fun c => (parseI32 c).getD 0)) rest
    | .row s => do
        let p ← unwrapExcept (Point.from_str s)
        readerFold (pts ++ [p], v) rest
    | .instance_name _ => .error .panic
    | .d => readerFold (pts, v) rest

/-- The reader crate's `Instance::from_str` after the structural parse: build
the instance with an empty name and return it with no sanity check at all. -/
def reader_from_parsed (nodes : List INode) : Except Fail Instance := do
  let acc ← readerFold ([], []) nodes
  mkInstance "" acc.1 acc.2

/-! ## `Solution::from_str` (`verify/solution.rs`)

Modelled from the spec: the PEG grammar file `sintef_solution.pest` is not
part of the sources; the result of the structural parse is modelled as the
list of matched `instance_name` and `route` nodes in file order. An absent
or unparsable name field simply produces no `instance_name` node. -/

/-- Modelled from the spec: one node of the structural solution parse. -/
inductive SNode where
  | instance_name (s : String)
  | route (s : String)
deriving DecidableEq

/-- Name normalization of `Solution::from_str`: lower-case the matched name
field and drop every whitespace character. -/
def normalizeName (s : String) : String :=
  ⟨(s.data.map Char.toLower).filter fun c => !c.isWhitespace⟩

/-- Route body parsing of `Solution::from_str`: whitespace-separated tokens
parsed as `usize` with `unwrap_or_default` (an unparsable token becomes 0). -/
def parseRouteIds (s : String) : List Nat :=
  (splitWhitespace s).map fun c => (parseUsize c).getD 0

/-- The node loop of `Solution::from_str` over the structural parse. -/
def solFold : String × List (List Nat) → List SNode → String × List (List Nat)
  | acc, [] => acc
  | (name, routes), node :: rest =>
    match node with
    | .instance_name s => solFold (normalizeName s, routes) rest
    | .route s => solFold (name, routes ++ [parseRouteIds s]) rest

/-- `Solution::from_str` after the structural parse. -/
def Solution.from_parsed (nodes : List SNode) : Solution :=
  let acc := solFold ("", []) nodes
  { instance_name := acc.1, routes := acc.2 }

/-! ## `compare` (`verifier-server/src/main.rs`) -/

namespace Server

/-- The best-known-solution record used by the server (`Bks`), with the
distance idealised as a rational (only subtraction, negation, absolute
value and comparisons against 0.001 are performed on it). -/
structure Bks where
  routes : Nat
  distance : ℚ
deriving DecidableEq

/-- `compare` of `verifier-server/src/main.rs`: a new result (route count
and distance) against the recorded best, if any. -/
def compare (routes : Nat) (distance : ℚ) (best : Option Bks) : Ordering :=
  match best with
  | none => .lt
  | some b =>
    let diff := b.distance - distance
    if diff < -(1 / 1000 : ℚ) then .lt
    else if |diff| < (1 / 1000 : ℚ) then .eq
    else .gt

end Server

/-! ## Spec-side description of the time-feasibility check (for claim C1)

The following two definitions follow the WORDS of the specification
(§4.4 step 5), not the source: a uniform simulation over the legs
depot→first, stop→stop, last→depot, to be compared with the source's
`check_route_time` above. -/

/-- Resolve every stop id of a route to its point (panicking read). -/
noncomputable def resolveStops (inst : Instance) : List Nat → Except Fail (List Point)
  | [] => .ok []
  | i :: rest => do
      let p ← vecGet inst.pts i
      let ps ← resolveStops inst rest
      .ok (p :: ps)

/-- Spec-side leg simulation: from `prev` (time already includes `prev`'s
service), travel to each remaining stop in turn, fail as soon as an arrival
exceeds the destination's due time (naming arrival, destination id, route
and 0-based position), otherwise wait until the destination's start and add
its service; after the final stop, travel back to the depot and check the
arrival against the depot's own due time. -/
noncomputable def specLegs (routeId : Nat) (depot : Point) : ℝ → Nat → Point → List Point → Except Fail Unit
  | time, _, prev, [] =>
      if time + prev.dist depot > (depot.due : ℝ) then
        .error (.err (.verif (.arrivedLateAtDepot (time + prev.dist depot) routeId)))
      else .ok ()
  | time, pos, prev, next :: rest =>
      if time + prev.dist next > (next.due : ℝ) then
        .error (.err (.verif (.arrivedLate (time + prev.dist next) next.id routeId pos)))
      else
        specLegs routeId depot (max (time + prev.dist next) ((next.start : Int) : ℝ) + (next.service : ℝ)) (pos + 1) next rest

/-- Spec-side time-feasibility check: start at `depot.start + depot.service`
and walk every leg uniformly. -/
noncomputable def spec_route_time (inst : Instance) (routeId : Nat) (route : List Nat) : Except Fail Unit := do
  let depot ← vecGet inst.pts 0
  let stops ← resolveStops inst route
  specLegs routeId depot ((depot.start + depot.service : Int) : ℝ) 0 depot stops

/-! ## Concrete instances used by the claims -/

/-- Depot of the unit-ring instance of the test suite (`setup()` in `verify.rs`). -/
def ringP0 : Point := { id := 0, x := 0, y := 0, demand := 0, start := 0, due := 48, service := 0, pickup_delivery := none }

/-- Ring point 1 at (0,1). -/
def ringP1 : Point := { id := 1, x := 0, y := 1, demand := 2, start := 0, due := 10, service := 10, pickup_delivery := none }

/-- Ring point 2 at (1,1). -/
def ringP2 : Point := { id := 2, x := 1, y := 1, demand := 2, start := 0, due := 3600, service := 10, pickup_delivery := none }

/-- Ring point 3 at (1,0). -/
def ringP3 : Point := { id := 3, x := 1, y := 0, demand := 2, start := 0, due := 3600, service := 10, pickup_delivery := none }

/-- Ring point 4 at (0,-1). -/
def ringP4 : Point := { id := 4, x := 0, y := -1, demand := 2, start := 0, due := 3600, service := 10, pickup_delivery := none }

/-- Ring point 5 at (-1,-1). -/
def ringP5 : Point := { id := 5, x := -1, y := -1, demand := 2, start := 0, due := 3600, service := 10, pickup_delivery := none }

/-- Ring point 6 at (-1,0). -/
def ringP6 : Point := { id := 6, x := -1, y := 0, demand := 2, start := 0, due := 3600, service := 10, pickup_delivery := none }

/-- The unit-ring instance: depot at the origin, six unit-separated points,
`vehicles = 3`, `max_capacity = 10`. -/
def ringInst : Instance :=
  { name := "test", vehicles := 3, max_capacity := 10, is_pdp := false,
    pts := [ringP0, ringP1, ringP2, ringP3, ringP4, ringP5, ringP6] }

/-- The two-route solution of Scenario A. -/
def ringSol : Solution := { instance_name := "", routes := [[1, 2, 3], [4, 5, 6]] }

/-- Depot for the both-violations example (claim C2). -/
def c2P0 : Point := { id := 0, x := 0, y := 0, demand := 0, start := 0, due := 1000, service := 0, pickup_delivery := none }

/-- Stop 1 of the both-violations example. -/
def c2P1 : Point := { id := 1, x := 0, y := 1, demand := 2, start := 0, due := 100, service := 10, pickup_delivery := none }

/-- Stop 2 of the both-violations example: due time 3, unreachable in time by
route [1, 2], and pushing the load to 4 over the capacity 3. -/
def c2P2 : Point := { id := 2, x := 0, y := 2, demand := 2, start := 0, due := 3, service := 0, pickup_delivery := none }

/-- Instance on which route [1, 2] violates both the capacity constraint and
a time window. -/
def c2Inst : Instance :=
  { name := "c2", vehicles := 1, max_capacity := 3, is_pdp := false, pts := [c2P0, c2P1, c2P2] }

/-- Solution whose single route violates both capacity and a time window. -/
def c2Sol : Solution := { instance_name := "", routes := [[1, 2]] }

/-- Depot for the empty-route example (claim C9). -/
def c9P0 : Point := { id := 0, x := 0, y := 0, demand := 0, start := 0, due := 1000, service := 0, pickup_delivery := none }

/-- The single client of the empty-route example. -/
def c9P1 : Point := { id := 1, x := 0, y := 1, demand := 1, start := 0, due := 100, service := 0, pickup_delivery := none }

/-- Instance for the empty-route example. -/
def c9Inst : Instance :=
  { name := "c9", vehicles := 2, max_capacity := 10, is_pdp := false, pts := [c9P0, c9P1] }

/-- A solution with an empty second route that passes basic sanity,
pickup/delivery and fleet-size checks. -/
def c9Sol : Solution := { instance_name := "", routes := [[1], []] }

/-- Depot of the PDP example (claim C10), with the required `(0, 0)` pair. -/
def pdpP0 : Point := { id := 0, x := 0, y := 0, demand := 0, start := 0, due := 1000, service := 0, pickup_delivery := some (0, 0) }

/-- A non-depot point of a PDP instance carrying NO pickup/delivery pair. -/
def pdpP1 : Point := { id := 1, x := 0, y := 1, demand := 1, start := 0, due := 100, service := 0, pickup_delivery := none }

/-- A PDP instance in which point 1 has no pickup/delivery pair. -/
def pdpInst : Instance :=
  { name := "pdp", vehicles := 1, max_capacity := 10, is_pdp := true, pts := [pdpP0, pdpP1] }

/-- The solution visiting point 1 once. -/
def pdpSol : Solution := { instance_name := "", routes := [[1]] }

/-- Structural parse nodes of an instance text whose depot has demand 5:
structurally fine, semantically insane. -/
def badNodes : List INode :=
  [.vehicles_capacity "1 10", .row "0 0 0 5 0 100 0", .row "1 0 1 1 0 50 0"]

/-- Depot row of `badNodes`: demand 5, which sanity rejects. -/
def badP0 : Point := { id := 0, x := 0, y := 0, demand := 5, start := 0, due := 100, service := 0, pickup_delivery := none }

/-- Client row of `badNodes`. -/
def badP1 : Point := { id := 1, x := 0, y := 1, demand := 1, start := 0, due := 50, service := 0, pickup_delivery := none }

/-- The insane instance built from `badNodes`. -/
def badInst : Instance :=
  { name := "", vehicles := 1, max_capacity := 10, is_pdp := false, pts := [badP0, badP1] }

/-- Structural parse nodes of a sane two-point instance text. -/
def goodNodes : List INode :=
  [.vehicles_capacity "1 10", .row "0 0 0 0 0 100 0", .row "1 0 1 1 0 50 0"]

/-- Depot row of `goodNodes`. -/
def goodP0 : Point := { id := 0, x := 0, y := 0, demand := 0, start := 0, due := 100, service := 0, pickup_delivery := none }

/-- Client row of `goodNodes`. -/
def goodP1 : Point := { id := 1, x := 0, y := 1, demand := 1, start := 0, due := 50, service := 0, pickup_delivery := none }

/-- The sane instance built from `goodNodes`. -/
def goodInst : Instance :=
  { name := "", vehicles := 1, max_capacity := 10, is_pdp := false, pts := [goodP0, goodP1] }

/-! ## Helper lemmas -/

@[simp] theorem except_bind_ok {α β : Type} (a : α) (f : α → Except Fail β) :
    (Except.ok a >>= f : Except Fail β) = f a := rfl

@[simp] theorem except_bind_err {α β : Type} (e : Fail) (f : α → Except Fail β) :
    (Except.error e >>= f : Except Fail β) = Except.error e := rfl

theorem bind_eq_ok_iff {α β : Type} (x : Except Fail α) (f : α → Except Fail β) (b : β) :
    (x >>= f) = .ok b ↔ ∃ a, x = .ok a ∧ f a = .ok b := by
  cases x <;> simp

/-- Route 1 of the ring solution is time-feasible. -/
theorem ring_time_ok1 : check_route_time ringInst 1 [1, 2, 3] = .ok () := by
  have g0 : vecGet ringInst.pts 0 = Except.ok ringP0 := rfl
  have g1 : vecGet ringInst.pts 1 = Except.ok ringP1 := rfl
  have g2 : vecGet ringInst.pts 2 = Except.ok ringP2 := rfl
  have g3 : vecGet ringInst.pts 3 = Except.ok ringP3 := rfl
  have hh : headIdx [1, 2, 3] = Except.ok 1 := rfl
  have hl : lastIdx [1, 2, 3] = Except.ok 3 := rfl
  rw [check_route_time]
  norm_num [timeLegs, g0, g1, g2, g3, hh, hl, max_def, Point.dist,
    Real.sqrt_one, ringP0, ringP1, ringP2, ringP3, except_bind_ok]

/-- Route 2 of the ring solution is time-feasible. -/
theorem ring_time_ok2 : check_route_time ringInst 2 [4, 5, 6] = .ok () := by
  have g0 : vecGet ringInst.pts 0 = Except.ok ringP0 := rfl
  have g4 : vecGet ringInst.pts 4 = Except.ok ringP4 := rfl
  have g5 : vecGet ringInst.pts 5 = Except.ok ringP5 := rfl
  have g6 : vecGet ringInst.pts 6 = Except.ok ringP6 := rfl
  have hh : headIdx [4, 5, 6] = Except.ok 4 := rfl
  have hl : lastIdx [4, 5, 6] = Except.ok 6 := rfl
  rw [check_route_time]
  norm_num [timeLegs, g0, g4, g5, g6, hh, hl, max_def, Point.dist,
    Real.sqrt_one, ringP0, ringP4, ringP5, ringP6, except_bind_ok]

/-- Route 1 of the ring solution has distance 4. -/
theorem ring_dist1 : calc_route_distance ringInst [1, 2, 3] = .ok 4 := by
  have g0 : vecGet ringInst.pts 0 = Except.ok ringP0 := rfl
  have g1 : vecGet ringInst.pts 1 = Except.ok ringP1 := rfl
  have g2 : vecGet ringInst.pts 2 = Except.ok ringP2 := rfl
  have g3 : vecGet ringInst.pts 3 = Except.ok ringP3 := rfl
  have hh : headIdx [1, 2, 3] = Except.ok 1 := rfl
  have hl : lastIdx [1, 2, 3] = Except.ok 3 := rfl
  rw [calc_route_distance]
  norm_num [legDists, g0, g1, g2, g3, hh, hl, Point.dist,
    Real.sqrt_one, ringP0, ringP1, ringP2, ringP3, except_bind_ok]

/-- Route 2 of the ring solution has distance 4. -/
theorem ring_dist2 : calc_route_distance ringInst [4, 5, 6] = .ok 4 := by
  have g0 : vecGet ringInst.pts 0 = Except.ok ringP0 := rfl
  have g4 : vecGet ringInst.pts 4 = Except.ok ringP4 := rfl
  have g5 : vecGet ringInst.pts 5 = Except.ok ringP5 := rfl
  have g6 : vecGet ringInst.pts 6 = Except.ok ringP6 := rfl
  have hh : headIdx [4, 5, 6] = Except.ok 4 := rfl
  have hl : lastIdx [4, 5, 6] = Except.ok 6 := rfl
  rw [calc_route_distance]
  norm_num [legDists, g0, g4, g5, g6, hh, hl, Point.dist,
    Real.sqrt_one, ringP0, ringP4, ringP5, ringP6, except_bind_ok]

/-- C6: on the unit-ring instance (depot at the origin, six unit-ring
points of demand 2, `max_capacity = 10`, `vehicles = 3`) and the solution
with routes [[1,2,3],[4,5,6]], `verify` succeeds and returns total
distance exactly 8. -/
theorem C6_scenario_a : verify ringInst ringSol = .ok 8 := by
  have hsan : check_basic_sanity ringInst ringSol = .ok () := rfl
  have hload1 : check_route_load ringInst 1 [1, 2, 3] = .ok () := rfl
  have hload2 : check_route_load ringInst 2 [4, 5, 6] = .ok () := rfl
  have hpdp : ringInst.is_pdp = false := rfl
  have hveh : usizeCast ringInst.vehicles = 3 := rfl
  rw [verify]
  rw [hsan]
  simp only [except_bind_ok, hpdp, Bool.false_eq_true, if_false, hveh]
  norm_num [verifyRoutes, ring_time_ok1, ring_time_ok2, hload1, hload2, ring_dist1, ring_dist2,
    except_bind_ok, ringSol]

/-- C4: the basic-sanity check of `verify.rs` compares `pt >
point_route_id.len()` instead of `>=`: a solution referencing node id
exactly equal to the number of points (here 7, on the 7-point ring
instance) reaches the vector read `point_route_id[pt]` and panics with an
index-out-of-bounds instead of returning the out-of-range error, while id
8 is correctly reported. -/
theorem C4_boundary_id_panics :
    check_basic_sanity ringInst { instance_name := "", routes := [[7]] } = .error .panic ∧
    check_basic_sanity ringInst { instance_name := "", routes := [[8]] } =
      .error (.err (.verif (.nodeNotInInstance 8 1 0))) :=
  ⟨rfl, rfl⟩

/-- C5 counterexample: comparing a 5-route result of distance 100 against a
recorded best of 3 routes and distance 100 yields `Equal`, exactly as the
3-route result does — the route counts do not influence the ordering,
contradicting the claim that more routes is classified as worse regardless
of distance. -/
theorem C5_counterexample :
    Server.compare 5 100 (some { routes := 3, distance := 100 }) = Ordering.eq ∧
    Server.compare 3 100 (some { routes := 3, distance := 100 }) = Ordering.eq := by
  constructor <;> (rw [Server.compare]; norm_num)

/-- C5 (amended): the server's best-known-solution comparison ignores route
counts entirely; with a recorded best it is a three-way classification of
the distances alone with the absolute epsilon 0.001 — `Equal` iff the
absolute difference is strictly below 0.001, `Less` iff the new distance
exceeds the best by strictly more than 0.001, `Greater` otherwise
(including the exact −0.001 boundary), and `Less` when no best exists. -/
theorem C5_distance_only (r r' b b' : Nat) (d bd : ℚ) :
    Server.compare r d (some { routes := b, distance := bd }) =
      Server.compare r' d (some { routes := b', distance := bd }) ∧
    (Server.compare r d (some { routes := b, distance := bd }) = .eq ↔ |bd - d| < 1 / 1000) ∧
    (Server.compare r d (some { routes := b, distance := bd }) = .lt ↔ bd - d < -(1 / 1000)) ∧
    (Server.compare r d (some { routes := b, distance := bd }) = .gt ↔
      (1 / 1000 ≤ bd - d ∨ bd - d = -(1 / 1000))) ∧
    Server.compare r d none = .lt := by
  refine ⟨rfl, ?_, ?_, ?_, rfl⟩ <;> rw [Server.compare] <;> split_ifs with h1 h2
  · simp only [reduceCtorEq, false_iff]
    rw [abs_lt]
    push_neg
    intro h
    linarith
  · simp only [true_iff]
    exact h2
  · simp only [reduceCtorEq, false_iff]
    exact h2
  · simp only [true_iff]
    exact h1
  · simp only [reduceCtorEq, false_iff]
    rw [abs_lt] at h2
    intro hc
    linarith [h2.1]
  · simp only [reduceCtorEq, false_iff]
    exact h1
  · simp only [reduceCtorEq, false_iff, not_or]
    constructor
    · linarith
    · intro h
      rw [h] at h1
      linarith
  · simp only [reduceCtorEq, false_iff, not_or]
    rw [abs_lt] at h2
    constructor
    · linarith [h2.2]
    · intro h
      rw [h] at h2
      linarith [h2.1]
  · simp only [true_iff]
    rw [abs_lt] at h2
    push_neg at h2
    rcases eq_or_lt_of_le (not_lt.mp h1) with h | h
    · right
      exact h.symm
    · left
      exact h2 h

/-- The PDP example instance passes `check_sanity`. -/
theorem pdpInst_sane : pdpInst.check_sanity = .ok () := by
  have hseq : point_ids_are_sequential pdpInst = .ok () := rfl
  have hdem : check_demands pdpInst = .ok () := rfl
  have g0 : vecGet pdpInst.pts 0 = Except.ok pdpP0 := rfl
  rw [Instance.check_sanity]
  rw [if_neg (by norm_num [pdpInst])]
  rw [hseq]
  simp only [except_bind_ok]
  rw [hdem]
  simp only [except_bind_ok]
  rw [check_time]
  show check_time_loop pdpInst [pdpP0, pdpP1] = _
  norm_num [check_time_loop, check_time_point, g0, max_def, Point.dist,
    Real.sqrt_one, Real.sqrt_zero, pdpP0, pdpP1, except_bind_ok]

/-- C10: `check_pdp` unwraps the `pickup_delivery` pair of every point with
id 1..N unconditionally, so on a PDP instance in which a non-depot point
carries no pair — an instance the sanity checks accept — both `check_pdp`
and `verify` panic instead of returning a result or an error. -/
theorem C10_pdp_unwrap_panic :
    pdpInst.check_sanity = .ok () ∧
    pdpInst.is_pdp = true ∧
    pdpInst.pts[1]? = some pdpP1 ∧
    pdpP1.pickup_delivery = none ∧
    check_pdp pdpInst pdpSol = .error .panic ∧
    verify pdpInst pdpSol = .error .panic := by
  refine ⟨pdpInst_sane, rfl, rfl, rfl, rfl, ?_⟩
  have hsan : check_basic_sanity pdpInst pdpSol = .ok () := rfl
  have hpdp : check_pdp pdpInst pdpSol = .error .panic := rfl
  rw [verify]
  rw [hsan]
  simp only [except_bind_ok]
  rw [show pdpInst.is_pdp = true from rfl]
  simp only [if_true]
  rw [hpdp]
  simp only [except_bind_err]

/-- On `c2Inst`, the time check of route [1, 2] fails with arrival 12 at
point 2. -/
theorem c2_time_err :
    check_route_time c2Inst 1 [1, 2] = .error (.err (.verif (.arrivedLate 12 2 1 1))) := by
  have g0 : vecGet c2Inst.pts 0 = Except.ok c2P0 := rfl
  have g1 : vecGet c2Inst.pts 1 = Except.ok c2P1 := rfl
  have g2 : vecGet c2Inst.pts 2 = Except.ok c2P2 := rfl
  have hh : headIdx [1, 2] = Except.ok 1 := rfl
  rw [check_route_time]
  norm_num [timeLegs, g0, g1, g2, hh, max_def, Point.dist,
    Real.sqrt_one, c2P0, c2P1, c2P2, except_bind_ok]

/-- C2 counterexample: on `c2Inst` with routes [[1, 2]] (which pass the
basic-sanity, pickup/delivery and fleet-size checks), the single route
violates both the capacity constraint (load 4 > 3 at point 2) and a time
window (arrival 12 > due 3 at point 2), and the error `verify` returns is
the TIME error, not the load error. -/
theorem C2_counterexample :
    check_basic_sanity c2Inst c2Sol = .ok () ∧
    ¬ c2Sol.routes.length > usizeCast c2Inst.vehicles ∧
    check_route_load c2Inst 1 [1, 2] = .error (.err (.verif (.overCapacity 4 3 2 1 1))) ∧
    check_route_time c2Inst 1 [1, 2] = .error (.err (.verif (.arrivedLate 12 2 1 1))) ∧
    verify c2Inst c2Sol = .error (.err (.verif (.arrivedLate 12 2 1 1))) := by
  have ht := c2_time_err
  refine ⟨rfl, by decide, rfl, ht, ?_⟩
  have hsan : check_basic_sanity c2Inst c2Sol = .ok () := rfl
  have hpdp : c2Inst.is_pdp = false := rfl
  have hveh : usizeCast c2Inst.vehicles = 1 := rfl
  rw [verify]
  rw [hsan]
  simp only [except_bind_ok, hpdp, Bool.false_eq_true, if_false, hveh]
  rw [if_neg (by norm_num [c2Sol])]
  show verifyRoutes c2Inst 1 0 [[1, 2]] = _
  rw [verifyRoutes]
  rw [ht]
  simp only [except_bind_err]

/-- A vector read within bounds returns the element. -/
theorem vecGet_eq_ok {α : Type} (l : List α) (i : Nat) (h : i < l.length) :
    vecGet l i = .ok (l.get ⟨i, h⟩) := by
  rw [vecGet, List.getElem?_eq_getElem h]
  rfl

/-- `route.last().unwrap()` on a non-empty route returns a member. -/
theorem lastIdx_ok_mem : ∀ (route : List Nat), route ≠ [] → ∃ i, lastIdx route = .ok i ∧ i ∈ route
  | [], h => absurd rfl h
  | [a], _ => ⟨a, rfl, List.mem_singleton.mpr rfl⟩
  | a :: b :: rest, _ => by
      obtain ⟨i, hi, hm⟩ := lastIdx_ok_mem (b :: rest) (by simp)
      exact ⟨i, hi, List.mem_cons_of_mem a hm⟩

/-- The window loop of the time check never panics when every index is in
bounds. -/
theorem timeLegs_not_panic (inst : Instance) (rid : Nat) :
    ∀ (rest : List Nat) (f : Nat) (time : ℝ) (pos : Nat),
      f < inst.pts.length → (∀ i ∈ rest, i < inst.pts.length) →
      timeLegs inst rid f time pos rest ≠ .error .panic
  | [], f, time, pos, hf, hb => by
      rw [timeLegs]
      simp
  | t :: rs, f, time, pos, hf, hb => by
      rw [timeLegs]
      rw [vecGet_eq_ok _ _ hf, vecGet_eq_ok _ _ (hb t (by simp))]
      simp only [except_bind_ok]
      split
      · simp
      · exact timeLegs_not_panic inst rid rs t _ _ (hb t (by simp)) (fun i hi => hb i (by simp [hi]))


theorem legDists_ok (inst : Instance) :
    ∀ (rest : List Nat) (f : Nat),
      f < inst.pts.length → (∀ i ∈ rest, i < inst.pts.length) →
      ∃ ds, legDists inst f rest = .ok ds
  | [], f, hf, hb => ⟨[], by rw [legDists]⟩
  | t :: rs, f, hf, hb => by
      obtain ⟨ds, hds⟩ := legDists_ok inst rs t (hb t (by simp)) (fun i hi => hb i (by simp [hi]))
      refine ⟨(inst.pts.get ⟨f, hf⟩).dist (inst.pts.get ⟨t, hb t (by simp)⟩) :: ds, ?_⟩
      rw [legDists]
      rw [vecGet_eq_ok _ _ hf, vecGet_eq_ok _ _ (hb t (by simp))]
      simp only [except_bind_ok]
      rw [hds]
      exact rfl

theorem timeLegs_ok_imp_legDists (inst : Instance) (rid : Nat) :
    ∀ (rest : List Nat) (f : Nat) (time : ℝ) (pos : Nat) (t : ℝ),
      timeLegs inst rid f time pos rest = .ok t →
      ∃ ds, legDists inst f rest = .ok ds
  | [], f, time, pos, t, h => ⟨[], by rw [legDists]⟩
  | t' :: rs, f, time, pos, t, h => by
      rw [timeLegs] at h
      cases hf : vecGet inst.pts f with
      | error e => rw [hf] at h; simp at h
      | ok fromPt =>
        rw [hf] at h
        simp only [except_bind_ok] at h
        cases hg : vecGet inst.pts t' with
        | error e => rw [hg] at h; simp at h
        | ok toPt =>
          rw [hg] at h
          simp only [except_bind_ok] at h
          split at h
          · simp at h
          · obtain ⟨ds, hds⟩ := timeLegs_ok_imp_legDists inst rid rs t' _ _ _ h
            refine ⟨fromPt.dist toPt :: ds, ?_⟩
            rw [legDists, hf, hg]
            simp only [except_bind_ok]
            rw [hds]
            exact rfl

theorem time_ok_calc_ok (inst : Instance) (rid : Nat) (route : List Nat)
    (h : check_route_time inst rid route = .ok ()) :
    ∃ d, calc_route_distance inst route = .ok d := by
  rw [check_route_time] at h
  rw [bind_eq_ok_iff] at h
  obtain ⟨depot, hdep, h⟩ := h
  rw [bind_eq_ok_iff] at h
  obtain ⟨f0, hf0, h⟩ := h
  rw [bind_eq_ok_iff] at h
  obtain ⟨first, hfirst, h⟩ := h
  dsimp only at h
  split at h
  · simp at h
  · rw [bind_eq_ok_iff] at h
    obtain ⟨tEnd, htl, h⟩ := h
    rw [bind_eq_ok_iff] at h
    obtain ⟨l, hl, h⟩ := h
    rw [bind_eq_ok_iff] at h
    obtain ⟨last, hlast, h⟩ := h
    obtain ⟨ds, hds⟩ := timeLegs_ok_imp_legDists inst rid route.tail f0 _ _ _ htl
    rw [calc_route_distance, hdep, hf0]
    simp only [except_bind_ok]
    rw [hfirst]
    simp only [except_bind_ok]
    rw [hl]
    simp only [except_bind_ok]
    rw [hlast]
    simp only [except_bind_ok]
    rw [hds]
    simp only [except_bind_ok]
    exact ⟨_, rfl⟩

theorem check_route_time_not_panic (inst : Instance) (rid : Nat) (route : List Nat)
    (hne : route ≠ []) (hb : ∀ i ∈ route, i < inst.pts.length) (hpts : 0 < inst.pts.length) :
    check_route_time inst rid route ≠ .error .panic := by
  obtain ⟨r0, tail, rfl⟩ : ∃ r0 tail, route = r0 :: tail := by
    cases route with
    | nil => exact absurd rfl hne
    | cons a l => exact ⟨a, l, rfl⟩
  have hr0 : r0 < inst.pts.length := hb r0 (by simp)
  have hbt : ∀ i ∈ tail, i < inst.pts.length := fun i hi => hb i (by simp [hi])
  have key : ∀ time : ℝ,
      (do
        let timeEnd ← timeLegs inst rid r0 time 1 tail
        let l ← lastIdx (r0 :: tail)
        let last ← vecGet inst.pts l
        if timeEnd + last.dist (inst.pts.get ⟨0, hpts⟩) > ((inst.pts.get ⟨0, hpts⟩).due : ℝ) then
          Except.error (.err (.verif (.arrivedLateAtDepot (timeEnd + last.dist (inst.pts.get ⟨0, hpts⟩)) rid)))
        else Except.ok ()) ≠ Except.error .panic := by
    intro time
    cases htl : timeLegs inst rid r0 time 1 tail with
    | error e =>
      simp only [htl, except_bind_err]
      have hnp := timeLegs_not_panic inst rid tail r0 time 1 hr0 hbt
      rw [htl] at hnp
      intro hc
      injection hc with he
      exact hnp (by rw [he])
    | ok t =>
      simp only [htl, except_bind_ok]
      obtain ⟨l, hl, hm⟩ := lastIdx_ok_mem (r0 :: tail) (by simp)
      rw [hl]
      simp only [except_bind_ok]
      rw [vecGet_eq_ok _ _ (hb l hm)]
      simp only [except_bind_ok]
      split
      · simp
      · simp
  rw [check_route_time]
  rw [vecGet_eq_ok _ _ hpts]
  rw [show headIdx (r0 :: tail) = .ok r0 from rfl]
  simp only [except_bind_ok]
  rw [vecGet_eq_ok _ _ hr0]
  simp only [except_bind_ok]
  split
  · simp
  · simpa using key _

/-- The distance computation never panics on a non-empty route whose ids
are all in bounds (on a non-empty point list). -/
theorem calc_route_distance_not_panic (inst : Instance) (route : List Nat)
    (hne : route ≠ []) (hb : ∀ i ∈ route, i < inst.pts.length) (hpts : 0 < inst.pts.length) :
    calc_route_distance inst route ≠ .error .panic := by
  obtain ⟨r0, tail, rfl⟩ : ∃ r0 tail, route = r0 :: tail := by
    cases route with
    | nil => exact absurd rfl hne
    | cons a l => exact ⟨a, l, rfl⟩
  have hr0 : r0 < inst.pts.length := hb r0 (by simp)
  obtain ⟨l, hl, hm⟩ := lastIdx_ok_mem (r0 :: tail) (by simp)
  obtain ⟨ds, hds⟩ := legDists_ok inst tail r0 hr0 (fun i hi => hb i (by simp [hi]))
  rw [calc_route_distance]
  rw [vecGet_eq_ok _ _ hpts]
  rw [show headIdx (r0 :: tail) = .ok r0 from rfl]
  simp only [except_bind_ok]
  rw [vecGet_eq_ok _ _ hr0]
  simp only [except_bind_ok]
  rw [hl]
  simp only [except_bind_ok]
  rw [vecGet_eq_ok _ _ (hb l hm)]
  simp only [except_bind_ok]
  simp only [List.tail_cons]
  rw [hds]
  simp only [except_bind_ok]
  simp

/-- Walking the per-route loop of `verify`: if every route before position
`pre.length` passes both the time and the load check, and the route at that
position fails the time check, the loop stops with exactly that error. -/
theorem verifyRoutes_first_error (inst : Instance) :
    ∀ (pre : List (List Nat)) (k : Nat) (acc : ℝ) (r : List Nat) (post : List (List Nat)) (et : Fail),
      (∀ i r', pre[i]? = some r' →
        check_route_time inst (k + i + 1) r' = .ok () ∧ check_route_load inst (k + i + 1) r' = .ok ()) →
      check_route_time inst (k + pre.length + 1) r = .error et →
      verifyRoutes inst (k + 1) acc (pre ++ r :: post) = .error et
  | [], k, acc, r, post, et, hpre, ht => by
      rw [List.nil_append, verifyRoutes]
      rw [show k + List.length [] + 1 = k + 1 from by simp] at ht
      rw [ht]
      simp only [except_bind_err]
  | p :: pre, k, acc, r, post, et, hpre, ht => by
      rw [List.cons_append, verifyRoutes]
      obtain ⟨htp, hlp⟩ := hpre 0 p (by simp)
      rw [show k + 0 + 1 = k + 1 from by simp] at htp hlp
      rw [htp]
      simp only [except_bind_ok]
      rw [hlp]
      simp only [except_bind_ok]
      obtain ⟨d, hd⟩ := time_ok_calc_ok inst (k + 1) p htp
      rw [hd]
      simp only [except_bind_ok]
      have harith : k + (p :: pre).length + 1 = k + 1 + pre.length + 1 := by
        simp only [List.length_cons]
        omega
      rw [harith] at ht
      exact verifyRoutes_first_error inst pre (k + 1) (acc + d) r post et
        (fun i r' hi => by
          have hstep := hpre (i + 1) r' (by simpa using hi)
          rwa [show k + (i + 1) + 1 = k + 1 + i + 1 from by omega] at hstep)
        ht

/-- C2 (amended): `verify` runs the per-route TIME check before the load
check: for every instance and solution passing the basic-sanity,
pickup/delivery and fleet-size checks, if the routes before position p pass
both per-route checks and the route at position p violates both the
capacity constraint and a time window, the single error returned by
`verify` is the time error, not the load error. -/
theorem C2_time_before_load (inst : Instance) (sol : Solution)
    (hsan : check_basic_sanity inst sol = .ok ())
    (hpdp : inst.is_pdp = true → check_pdp inst sol = .ok ())
    (hfleet : ¬ sol.routes.length > usizeCast inst.vehicles)
    (pre : List (List Nat)) (r : List Nat) (post : List (List Nat)) (et el : Fail)
    (hsplit : sol.routes = pre ++ r :: post)
    (hpre : ∀ i r', pre[i]? = some r' →
        check_route_time inst (i + 1) r' = .ok () ∧ check_route_load inst (i + 1) r' = .ok ())
    (ht : check_route_time inst (pre.length + 1) r = .error et)
    (hl : check_route_load inst (pre.length + 1) r = .error el) :
    verify inst sol = .error et := by
  rw [verify, hsan]
  simp only [except_bind_ok]
  cases hb : inst.is_pdp with
  | true =>
      rw [if_pos rfl]
      rw [hpdp hb]
      simp only [except_bind_ok]
      rw [if_neg hfleet, hsplit]
      exact verifyRoutes_first_error inst pre 0 0 r post et
        (fun i r' hi => by simpa using hpre i r' hi)
        (by simpa using ht)
  | false =>
      rw [if_neg (by simp)]
      show (pure () >>= fun _ => _) = Except.error et
      simp only [pure, Except.pure, except_bind_ok]
      rw [if_neg hfleet, hsplit]
      exact verifyRoutes_first_error inst pre 0 0 r post et
        (fun i r' hi => by simpa using hpre i r' hi)
        (by simpa using ht)

/-- C2 witness: the amended statement applied to the concrete `c2Inst`. -/
theorem C2_witness :
    check_basic_sanity c2Inst c2Sol = .ok () ∧
    verify c2Inst c2Sol = .error (.err (.verif (.arrivedLate 12 2 1 1))) := by
  refine ⟨rfl, ?_⟩
  exact C2_time_before_load c2Inst c2Sol rfl (fun h => absurd h (by decide)) (by decide)
    [] [1, 2] [] _ _ rfl (fun i r' h => by simp at h) c2_time_err rfl

/-- On `c9Inst`, the single-stop route [1] passes the time check. -/
theorem c9_time_ok : check_route_time c9Inst 1 [1] = .ok () := by
  have g0 : vecGet c9Inst.pts 0 = Except.ok c9P0 := rfl
  have g1 : vecGet c9Inst.pts 1 = Except.ok c9P1 := rfl
  have hh : headIdx [1] = Except.ok 1 := rfl
  have hl : lastIdx [1] = Except.ok 1 := rfl
  rw [check_route_time]
  norm_num [timeLegs, g0, g1, hh, hl, max_def, Point.dist,
    Real.sqrt_one, c9P0, c9P1, except_bind_ok]

/-- On `c9Inst`, the single-stop route [1] has distance 2. -/
theorem c9_dist : calc_route_distance c9Inst [1] = .ok 2 := by
  have g0 : vecGet c9Inst.pts 0 = Except.ok c9P0 := rfl
  have g1 : vecGet c9Inst.pts 1 = Except.ok c9P1 := rfl
  have hh : headIdx [1] = Except.ok 1 := rfl
  have hl : lastIdx [1] = Except.ok 1 := rfl
  rw [calc_route_distance]
  norm_num [legDists, g0, g1, hh, hl, Point.dist,
    Real.sqrt_one, c9P0, c9P1, except_bind_ok]

/-- C9: the per-route accesses `route[0]` and `route.last().unwrap()` (and
every point read) of the time check and the distance computation are
panic-free exactly under the precondition that the route is non-empty (with
in-range ids on a non-empty point list); on the concrete solution `c9Sol`,
whose second route is empty and which passes the basic-sanity,
pickup/delivery and fleet-size checks, `verify` panics: it returns neither
a distance nor an error value. -/
theorem C9_totality :
    (∀ (inst : Instance) (rid : Nat) (route : List Nat),
        route ≠ [] → (∀ i ∈ route, i < inst.pts.length) → 0 < inst.pts.length →
        check_route_time inst rid route ≠ .error .panic ∧
        calc_route_distance inst route ≠ .error .panic) ∧
    check_basic_sanity c9Inst c9Sol = .ok () ∧
    ¬ c9Sol.routes.length > usizeCast c9Inst.vehicles ∧
    check_route_time c9Inst 2 [] = .error .panic ∧
    verify c9Inst c9Sol = .error .panic := by
  refine ⟨fun inst rid route hne hb hpts =>
    ⟨check_route_time_not_panic inst rid route hne hb hpts,
     calc_route_distance_not_panic inst route hne hb hpts⟩, rfl, by decide, rfl, ?_⟩
  have hsan : check_basic_sanity c9Inst c9Sol = .ok () := rfl
  rw [verify, hsan]
  simp only [except_bind_ok]
  rw [if_neg (by decide)]
  show (pure () >>= fun _ => _) = Except.error .panic
  simp only [pure, Except.pure, except_bind_ok]
  rw [if_neg (by decide)]
  show verifyRoutes c9Inst 1 0 [[1], []] = Except.error .panic
  rw [verifyRoutes, c9_time_ok]
  simp only [except_bind_ok]
  rw [show check_route_load c9Inst 1 [1] = .ok () from rfl]
  simp only [except_bind_ok]
  rw [c9_dist]
  simp only [except_bind_ok]
  rw [verifyRoutes]
  rw [show check_route_time c9Inst 2 [] = .error .panic from rfl]
  simp only [except_bind_err]

/-- C9 witness: the panic-freedom half applied to the non-empty route [1]
of `c9Inst`. -/
theorem C9_witness :
    ([1] : List Nat) ≠ [] ∧ (∀ i ∈ ([1] : List Nat), i < c9Inst.pts.length) ∧
    0 < c9Inst.pts.length ∧ check_route_time c9Inst 1 [1] ≠ .error .panic :=
  ⟨by decide, by decide, by decide,
   (C9_totality.1 c9Inst 1 [1] (by decide) (by decide) (by decide)).1⟩

/-- Resolving the stops succeeds when every id is in bounds. -/
theorem resolveStops_ok (inst : Instance) :
    ∀ (l : List Nat), (∀ i ∈ l, i < inst.pts.length) →
      ∃ stops, resolveStops inst l = .ok stops
  | [], hb => ⟨[], by rw [resolveStops]⟩
  | t :: rs, hb => by
      obtain ⟨stops, hstops⟩ := resolveStops_ok inst rs (fun i hi => hb i (by simp [hi]))
      refine ⟨inst.pts.get ⟨t, hb t (by simp)⟩ :: stops, ?_⟩
      rw [resolveStops, vecGet_eq_ok _ _ (hb t (by simp))]
      simp only [except_bind_ok]
      rw [hstops]
      exact rfl

/-- The window loop plus the closing depot leg of `check_route_time`
computes exactly the spec-side leg simulation. -/
theorem timeLegs_spec (inst : Instance) (rid : Nat) (depot : Point) :
    ∀ (rest : List Nat) (stops : List Point) (f : Nat) (prev : Point) (time : ℝ) (pos : Nat),
      vecGet inst.pts f = .ok prev →
      resolveStops inst rest = .ok stops →
      (do
        let timeEnd ← timeLegs inst rid f time pos rest
        let l ← lastIdx (f :: rest)
        let last ← vecGet inst.pts l
        if timeEnd + last.dist depot > (depot.due : ℝ) then
          Except.error (.err (.verif (.arrivedLateAtDepot (timeEnd + last.dist depot) rid)))
        else Except.ok ()) = specLegs rid depot time pos prev stops
  | [], stops, f, prev, time, pos, hf, hres => by
      rw [resolveStops] at hres
      injection hres with h
      subst h
      rw [timeLegs]
      simp only [except_bind_ok]
      rw [show lastIdx [f] = .ok f from rfl]
      simp only [except_bind_ok]
      rw [hf]
      simp only [except_bind_ok]
      rw [specLegs]
  | t :: rs, stops, f, prev, time, pos, hf, hres => by
      rw [resolveStops] at hres
      cases hq : vecGet inst.pts t with
      | error e => rw [hq] at hres; simp at hres
      | ok q =>
        rw [hq] at hres
        simp only [except_bind_ok] at hres
        cases hqs : resolveStops inst rs with
        | error e => rw [hqs] at hres; simp at hres
        | ok qs =>
          rw [hqs] at hres
          simp only [except_bind_ok] at hres
          injection hres with h
          subst h
          rw [timeLegs, hf, hq]
          simp only [except_bind_ok]
          rw [specLegs]
          by_cases hc : time + prev.dist q > ((q.due : Int) : ℝ)
          · rw [if_pos hc, if_pos hc]
            simp only [except_bind_err]
          · rw [if_neg hc, if_neg hc]
            exact timeLegs_spec inst rid depot rs qs t q _ _ hq hqs

/-- C1: for every instance and non-empty route whose ids are in range (as
guaranteed by the earlier checks), the source's `check_route_time` computes
exactly the specification's leg-by-leg simulation `spec_route_time`:
start at `depot.start + depot.service`; per leg add the Euclidean travel
distance, fail with the arrival time, destination id, route number and
0-based position as soon as an arrival exceeds the destination's due time,
else wait until the destination's start and add its service; and check the
closing leg against the depot's own due time. -/
theorem C1_time_refines_spec (inst : Instance) (rid : Nat) (route : List Nat)
    (hne : route ≠ []) (hb : ∀ i ∈ route, i < inst.pts.length) (hpts : 0 < inst.pts.length) :
    check_route_time inst rid route = spec_route_time inst rid route := by
  obtain ⟨r0, tail, rfl⟩ : ∃ r0 tail, route = r0 :: tail := by
    cases route with
    | nil => exact absurd rfl hne
    | cons a l => exact ⟨a, l, rfl⟩
  have hr0 : r0 < inst.pts.length := hb r0 (by simp)
  obtain ⟨stops, hstops⟩ := resolveStops_ok inst tail (fun i hi => hb i (by simp [hi]))
  rw [check_route_time, spec_route_time]
  rw [vecGet_eq_ok _ _ hpts]
  simp only [except_bind_ok]
  rw [show headIdx (r0 :: tail) = .ok r0 from rfl]
  simp only [except_bind_ok]
  rw [vecGet_eq_ok _ _ hr0]
  simp only [except_bind_ok]
  rw [show resolveStops inst (r0 :: tail) = (do
        let p ← vecGet inst.pts r0
        let ps ← resolveStops inst tail
        Except.ok (p :: ps)) from by rw [resolveStops]]
  rw [vecGet_eq_ok _ _ hr0]
  simp only [except_bind_ok]
  rw [hstops]
  simp only [except_bind_ok]
  rw [specLegs]
  by_cases hc : ((inst.pts.get ⟨0, hpts⟩).start + (inst.pts.get ⟨0, hpts⟩).service : Int) +
      (inst.pts.get ⟨0, hpts⟩).dist (inst.pts.get ⟨r0, hr0⟩) >
      (((inst.pts.get ⟨r0, hr0⟩).due : Int) : ℝ)
  · rw [if_pos hc, if_pos hc]
  · rw [if_neg hc, if_neg hc]
    simp only [List.tail_cons]
    exact timeLegs_spec inst rid (inst.pts.get ⟨0, hpts⟩) tail stops r0
      (inst.pts.get ⟨r0, hr0⟩) _ _ (vecGet_eq_ok _ _ hr0) hstops

/-- C1 witness: the refinement applied to route [1, 2, 3] of the ring
instance. -/
theorem C1_witness :
    (([1, 2, 3] : List Nat) ≠ []) ∧ (∀ i ∈ ([1, 2, 3] : List Nat), i < ringInst.pts.length) ∧
    0 < ringInst.pts.length ∧
    check_route_time ringInst 1 [1, 2, 3] = spec_route_time ringInst 1 [1, 2, 3] :=
  ⟨by decide, by decide, by decide,
   C1_time_refines_spec ringInst 1 [1, 2, 3] (by decide) (by decide) (by decide)⟩

/-- C3 counterexample: the reader crate's `Instance::from_str` runs no
sanity check: the structurally well-formed but insane instance text of
`badNodes` (its depot has demand 5) is returned successfully, although
`check_sanity` rejects it. -/
theorem C3_counterexample :
    reader_from_parsed badNodes = .ok badInst ∧
    badInst.check_sanity = .error (.err (.sanity (.depotDemandNonzero 5))) :=
  ⟨rfl, rfl⟩

/-- C3 (amended): every instance returned successfully by the VERIFIER
crate's parser satisfies the sanity invariants (`check_sanity` succeeds on
it); the reader crate's parser performs no such check. -/
theorem C3_verifier_parser_sane (nodes : List INode) (inst : Instance)
    (h : verifier_from_parsed nodes = .ok inst) : inst.check_sanity = .ok () := by
  rw [verifier_from_parsed] at h
  rw [bind_eq_ok_iff] at h
  obtain ⟨acc, hacc, h⟩ := h
  rw [bind_eq_ok_iff] at h
  obtain ⟨inst0, hmk, h⟩ := h
  rw [bind_eq_ok_iff] at h
  obtain ⟨u, hsane, h⟩ := h
  injection h with h
  subst h
  cases u
  exact hsane

/-- `goodInst` passes `check_sanity`. -/
theorem goodInst_sane : goodInst.check_sanity = .ok () := by
  have hseq : point_ids_are_sequential goodInst = .ok () := rfl
  have hdem : check_demands goodInst = .ok () := rfl
  have g0 : vecGet goodInst.pts 0 = Except.ok goodP0 := rfl
  rw [Instance.check_sanity]
  rw [if_neg (by norm_num [goodInst])]
  rw [hseq]
  simp only [except_bind_ok]
  rw [hdem]
  simp only [except_bind_ok]
  rw [check_time]
  show check_time_loop goodInst [goodP0, goodP1] = _
  norm_num [check_time_loop, check_time_point, g0, max_def, Point.dist,
    Real.sqrt_one, Real.sqrt_zero, goodP0, goodP1, except_bind_ok]

/-- C3 witness: the amended statement applied to the sane parse `goodNodes`. -/
theorem C3_witness :
    verifier_from_parsed goodNodes = .ok goodInst ∧ goodInst.check_sanity = .ok () := by
  have h : verifier_from_parsed goodNodes = .ok goodInst := by
    rw [verifier_from_parsed]
    rw [show instFold ([], [], "") goodNodes = Except.ok ([goodP0, goodP1], [1, 10], "") from rfl]
    simp only [except_bind_ok]
    rw [show mkInstance "" [goodP0, goodP1] [1, 10] = Except.ok goodInst from rfl]
    simp only [except_bind_ok]
    rw [goodInst_sane]
    simp only [except_bind_ok]
  exact ⟨h, C3_verifier_parser_sane goodNodes goodInst h⟩

/-- A successful token loop yields one integer per token, and every token
parses. -/
theorem parseFields_ok_spec : ∀ (ts : List String) (s : String) (i : Nat) (vs : List Int),
    parseFields s i ts = .ok vs → vs.length = ts.length ∧ ∀ t ∈ ts, (parseI32 t).isSome = true
  | [], s, i, vs, h => by
      rw [parseFields] at h
      injection h with h
      subst h
      exact ⟨rfl, by simp⟩
  | t :: rest, s, i, vs, h => by
      rw [parseFields] at h
      cases hp : parseI32 t with
      | none => rw [hp] at h; simp at h
      | some n =>
        rw [hp] at h
        cases hr : parseFields s (i + 1) rest with
        | error e => rw [hr] at h; simp at h
        | ok ns =>
          rw [hr] at h
          injection h with h
          subst h
          obtain ⟨hlen, hall⟩ := parseFields_ok_spec rest s (i + 1) ns hr
          refine ⟨by simp [hlen], ?_⟩
          intro u hu
          rcases List.mem_cons.mp hu with h1 | h2
          · subst h1
            simp [hp]
          · exact hall u h2

/-- When every token parses, the token loop succeeds with one integer per
token. -/
theorem parseFields_all_ok : ∀ (ts : List String) (s : String) (i : Nat),
    (∀ t ∈ ts, (parseI32 t).isSome = true) →
    ∃ vs, parseFields s i ts = .ok vs ∧ vs.length = ts.length
  | [], s, i, h => ⟨[], by rw [parseFields], rfl⟩
  | t :: rest, s, i, h => by
      obtain ⟨n, hn⟩ := Option.isSome_iff_exists.mp (h t (by simp))
      obtain ⟨vs, hvs, hlen⟩ := parseFields_all_ok rest s (i + 1) (fun u hu => h u (by simp [hu]))
      refine ⟨n :: vs, ?_, by simp [hlen]⟩
      rw [parseFields, hn, hvs]

/-- The token loop stops at the first unparsable token, naming the line,
the 0-based field index, and the token. -/
theorem parseFields_first_bad : ∀ (ts1 : List String) (s : String) (i : Nat) (t : String) (ts2 : List String),
    (∀ u ∈ ts1, (parseI32 u).isSome = true) → parseI32 t = none →
    parseFields s i (ts1 ++ t :: ts2) =
      .error (.err (.parse ("can\x27t parse line `" ++ s ++ "\x27: error in trying to parse field " ++
        toString (i + ts1.length) ++ ": `" ++ t ++ "\x27 can not be parsed ")))
  | [], s, i, t, ts2, hall, hbad => by
      rw [List.nil_append, parseFields, hbad]
      simp
  | u :: ts1, s, i, t, ts2, hall, hbad => by
      obtain ⟨n, hn⟩ := Option.isSome_iff_exists.mp (hall u (by simp))
      rw [List.cons_append, parseFields, hn]
      rw [parseFields_first_bad ts1 s (i + 1) t ts2 (fun v hv => hall v (by simp [hv])) hbad]
      have harith : i + 1 + ts1.length = i + (u :: ts1).length := by
        simp only [List.length_cons]
        omega
      rw [harith]

/-- `Point::from_str` succeeds exactly when all whitespace tokens parse as
integers and there are exactly 7 or exactly 9 of them. -/
theorem from_str_ok_iff (s : String) :
    (∃ p, Point.from_str s = .ok p) ↔
      (((splitWhitespace s).length = 7 ∨ (splitWhitespace s).length = 9) ∧
        ∀ t ∈ splitWhitespace s, (parseI32 t).isSome = true) := by
  constructor
  · rintro ⟨p, hp⟩
    rw [Point.from_str] at hp
    cases hf : parseFields s 0 (splitWhitespace s) with
    | error e => rw [hf] at hp; simp at hp
    | ok vs =>
      rw [hf] at hp
      obtain ⟨hlen, hall⟩ := parseFields_ok_spec (splitWhitespace s) s 0 vs hf
      refine ⟨?_, hall⟩
      rw [← hlen]
      rcases vs with _ | ⟨a, _ | ⟨b, _ | ⟨c, _ | ⟨d, _ | ⟨e, _ | ⟨f, _ | ⟨g, _ | ⟨h8, _ | ⟨i9, _ | ⟨j, rest⟩⟩⟩⟩⟩⟩⟩⟩⟩⟩ <;>
        simp_all
  · rintro ⟨hlen, hall⟩
    obtain ⟨vs, hvs, hvslen⟩ := parseFields_all_ok (splitWhitespace s) s 0 hall
    rw [Point.from_str, hvs]
    rcases vs with _ | ⟨a, _ | ⟨b, _ | ⟨c, _ | ⟨d, _ | ⟨e, _ | ⟨f, _ | ⟨g, _ | ⟨h8, _ | ⟨i9, _ | ⟨j, rest⟩⟩⟩⟩⟩⟩⟩⟩⟩⟩ <;>
      first
        | exact ⟨_, rfl⟩
        | (exfalso; simp at hvslen; omega)

/-- C7: a point row parses successfully exactly when its
whitespace-separated tokens all parse as integers and number exactly 7 or
exactly 9; the line "0 1 2 3" yields exactly the expected-count error text;
and a first failing token at 0-based index `ts1.length` yields the error
text naming the line, the field index, and the token. -/
theorem C7_point_row_parsing :
    (∀ s : String, (∃ p, Point.from_str s = .ok p) ↔
      (((splitWhitespace s).length = 7 ∨ (splitWhitespace s).length = 9) ∧
        ∀ t ∈ splitWhitespace s, (parseI32 t).isSome = true)) ∧
    Point.from_str "0 1 2 3" =
      .error (.err (.parse "expected 7 or 9 integers in line `0 1 2 3\x27, have 4 numbers")) ∧
    (∀ (s t : String) (ts1 ts2 : List String),
      splitWhitespace s = ts1 ++ t :: ts2 →
      (∀ u ∈ ts1, (parseI32 u).isSome = true) →
      parseI32 t = none →
      Point.from_str s = .error (.err (.parse ("can\x27t parse line `" ++ s ++
        "\x27: error in trying to parse field " ++ toString ts1.length ++ ": `" ++ t ++
        "\x27 can not be parsed ")))) := by
  refine ⟨from_str_ok_iff, rfl, ?_⟩
  intro s t ts1 ts2 hsplit hall hbad
  rw [Point.from_str, hsplit]
  rw [parseFields_first_bad ts1 s 0 t ts2 hall hbad]
  simp

/-- C7 witness: the bad-token case applied to the concrete line "0 a 2". -/
theorem C7_witness :
    splitWhitespace "0 a 2" = ["0"] ++ "a" :: ["2"] ∧
    (∀ u ∈ (["0"] : List String), (parseI32 u).isSome = true) ∧
    parseI32 "a" = none ∧
    Point.from_str "0 a 2" = .error (.err (.parse
      "can\x27t parse line `0 a 2\x27: error in trying to parse field 1: `a\x27 can not be parsed ")) := by
  refine ⟨rfl, by decide, rfl, ?_⟩
  have h := C7_point_row_parsing.2.2 "0 a 2" "a" ["0"] ["2"] rfl (by decide) rfl
  exact h

/-- When no `instance_name` node occurs, the name accumulator is untouched. -/
theorem solFold_fst_no_name : ∀ (nodes : List SNode) (st : String × List (List Nat)),
    (∀ s, SNode.instance_name s ∉ nodes) → (solFold st nodes).1 = st.1
  | [], st, h => rfl
  | node :: rest, st, h => by
      obtain ⟨nm, rts⟩ := st
      cases node with
      | instance_name s => exact absurd (by simp) (h s)
      | route s =>
          rw [solFold]
          exact solFold_fst_no_name rest _ (fun u hu => h u (by simp [hu]))

/-- The stored name is the normalization of the last `instance_name` node. -/
theorem solFold_fst_last_name : ∀ (pre : List SNode) (s : String) (post : List SNode)
    (st : String × List (List Nat)),
    (∀ t, SNode.instance_name t ∉ post) →
    (solFold st (pre ++ .instance_name s :: post)).1 = normalizeName s
  | [], s, post, st, h => by
      obtain ⟨nm, rts⟩ := st
      rw [List.nil_append, solFold]
      exact solFold_fst_no_name post _ h
  | node :: pre, s, post, st, h => by
      obtain ⟨nm, rts⟩ := st
      rw [List.cons_append]
      cases node with
      | instance_name u =>
          rw [solFold]
          exact solFold_fst_last_name pre s post _ h
      | route u =>
          rw [solFold]
          exact solFold_fst_last_name pre s post _ h

/-- C8: for every structural solution parse, the stored `instance_name` is
the (last) instance-name field case-folded to lower case with all internal
whitespace removed, and an absent name field yields the empty string; in
particular the field contents "rc 1 _ \t 4_10" and "RC1_4_10" both
normalize to "rc1_4_10". -/
theorem C8_instance_name_normalization :
    (∀ nodes : List SNode, (∀ s, SNode.instance_name s ∉ nodes) →
      (Solution.from_parsed nodes).instance_name = "") ∧
    (∀ (pre : List SNode) (s : String) (post : List SNode),
      (∀ t, SNode.instance_name t ∉ post) →
      (Solution.from_parsed (pre ++ .instance_name s :: post)).instance_name = normalizeName s) ∧
    normalizeName "rc 1 _ \t 4_10" = "rc1_4_10" ∧
    normalizeName "RC1_4_10" = "rc1_4_10" := by
  refine ⟨?_, ?_, by decide, by decide⟩
  · intro nodes h
    exact solFold_fst_no_name nodes ("", []) h
  · intro pre s post h
    exact solFold_fst_last_name pre s post ("", []) h

/-- C8 witness: the no-name case on a route-only parse and the
normalization case on the field "RC1_4_10". -/
theorem C8_witness :
    (∀ s, SNode.instance_name s ∉ ([SNode.route "1 2 3"] : List SNode)) ∧
    (Solution.from_parsed [SNode.route "1 2 3"]).instance_name = "" ∧
    (∀ t, SNode.instance_name t ∉ ([] : List SNode)) ∧
    (Solution.from_parsed ([SNode.route "1 2 3"] ++ SNode.instance_name "RC1_4_10" :: [])).instance_name =
      normalizeName "RC1_4_10" := by
  have h1 : ∀ s, SNode.instance_name s ∉ ([SNode.route "1 2 3"] : List SNode) := by
    intro s hs
    simp at hs
  have h2 : ∀ t, SNode.instance_name t ∉ ([] : List SNode) := by
    intro t ht
    simp at ht
  exact ⟨h1, C8_instance_name_normalization.1 [SNode.route "1 2 3"] h1, h2,
    C8_instance_name_normalization.2.1 [SNode.route "1 2 3"] "RC1_4_10" [] h2⟩
